import Mathlib

/-!
Verification development for the Sleep-Science conversational backend.

The definitions below are a shallow embedding of the Python sources:
- `backend/models/chat.py` (class `ChatBot`): conversation store and chat
  orchestration,
- `backend/models/analytics.py` (class `AnalyticsService`): interaction log
  and derived analytics,
- `backend/api/routes/chat.py` (`chat_with_bot`): the chat route tying the
  two together.

Modelling conventions:
- timestamps (`datetime.utcnow()`) are natural numbers (seconds); each
  operation receives the current time `now : Nat` as a parameter and uses
  it for every `utcnow()` call it performs;
- Python `dict`s are association lists with first-match lookup; keys are
  unique in every reachable state, so modelling `del d[k]` by filtering the
  key out is faithful;
- the AWS Bedrock call is an external collaborator, passed in as a function
  `llm` from the formatted message list to `Except String String` (reply
  text on success);
- Python floats that only ever carry exact decimal constants or exact
  averages are modelled as rationals; `round(x, 2)` applied to reported
  averages is presentation only and is not modelled;
- raised exceptions are modelled as `Except.error` carrying the message.
-/

namespace SleepScience

/-- One entry of the `messages` list of a conversation (chat.py lines 251-255). -/
structure Message where
  role : String
  content : String
  timestamp : Nat
deriving Repr, DecidableEq

/-- One value of the `self.conversations` dict (chat.py lines 103-107). -/
structure Conversation where
  messages : List Message
  created_at : Nat
  updated_at : Nat
deriving Repr, DecidableEq

/-- The `self.conversations` dict of `ChatBot`. -/
abbrev ConvStore := List (String × Conversation)

/-- First-match lookup in an association list (Python dict read `d[k]` / `d.get(k)`). -/
def lookupK {α : Type} (m : List (String × α)) (k : String) : Option α :=
  match m with
  | [] => none
  | (k', v) :: rest => if k' = k then some v else lookupK rest k

/-- Dict write `d[k] = v`: replace the binding in place, or append a new one. -/
def setKey {α : Type} (m : List (String × α)) (k : String) (v : α) : List (String × α) :=
  match m with
  | [] => [(k, v)]
  | (k', v') :: rest => if k' = k then (k, v) :: rest else (k', v') :: setKey rest k v

/-- Dict delete `del d[k]` (keys are unique in reachable states). -/
def eraseKey {α : Type} (m : List (String × α)) (k : String) : List (String × α) :=
  match m with
  | [] => []
  | (k', v) :: rest => if k' = k then eraseKey rest k else (k', v) :: eraseKey rest k

@[simp] theorem lookupK_nil {α : Type} (k : String) : lookupK ([] : List (String × α)) k = none := rfl

@[simp] theorem lookupK_cons {α : Type} (k' k : String) (v : α) (rest : List (String × α)) :
    lookupK ((k', v) :: rest) k = if k' = k then some v else lookupK rest k := rfl

@[simp] theorem lookupK_setKey_self {α : Type} (m : List (String × α)) (k : String) (v : α) :
    lookupK (setKey m k v) k = some v := by
  induction m with
  | nil => simp [setKey, lookupK]
  | cons p rest ih =>
    obtain ⟨k', v'⟩ := p
    by_cases h : k' = k <;> simp [setKey, lookupK, h, ih]

theorem lookupK_setKey_ne {α : Type} (m : List (String × α)) (k k' : String) (v : α)
    (h : k' ≠ k) : lookupK (setKey m k v) k' = lookupK m k' := by
  have hne : ¬ k = k' := fun h' => h h'.symm
  induction m with
  | nil => simp [setKey, lookupK, hne]
  | cons p rest ih =>
    obtain ⟨k₀, v₀⟩ := p
    by_cases hk : k₀ = k
    · subst hk
      simp [setKey, lookupK, hne]
    · simp only [setKey, if_neg hk, lookupK]
      by_cases hk' : k₀ = k'
      · simp [hk']
      · simp [hk', ih]

@[simp] theorem lookupK_eraseKey_self {α : Type} (m : List (String × α)) (k : String) :
    lookupK (eraseKey m k) k = none := by
  induction m with
  | nil => rfl
  | cons p rest ih =>
    obtain ⟨k', v⟩ := p
    by_cases h : k' = k
    · simp [eraseKey, h, ih]
    · simp [eraseKey, h, lookupK, ih]

theorem lookupK_eraseKey_ne {α : Type} (m : List (String × α)) (k k' : String)
    (h : k' ≠ k) : lookupK (eraseKey m k) k' = lookupK m k' := by
  induction m with
  | nil => rfl
  | cons p rest ih =>
    obtain ⟨k₀, v₀⟩ := p
    have hne : ¬ k = k' := fun h' => h h'.symm
    by_cases hk : k₀ = k
    · simp [eraseKey, hk, lookupK, hne, ih]
    · by_cases hk' : k₀ = k'
      · simp [eraseKey, hk, hk', lookupK, h]
      · simp [eraseKey, hk, hk', lookupK, ih]

/-- Embeds `ChatBot._add_message_to_conversation` (chat.py lines 230-258): create the
conversation if absent, append the message, refresh `updated_at`. -/
def addMessageToConversation (m : ConvStore) (cid role content : String) (now : Nat) :
    ConvStore :=
  let conv : Conversation := match lookupK m cid with
    | none => { messages := [], created_at := now, updated_at := now }
    | some c => c
  setKey m cid
    { conv with
      messages := conv.messages ++ [{ role := role, content := content, timestamp := now }],
      updated_at := now }

/-- Embeds the read `self.conversations.get(cid, ...).get("messages", [])` of chat.py line 149. -/
def messagesOf (m : ConvStore) (cid : String) : List Message :=
  ((lookupK m cid).map (·.messages)).getD []

/-- Embeds `ChatBot.get_conversation_history` (chat.py lines 260-273). -/
def get_conversation_history (m : ConvStore) (cid : String) : Except String Conversation :=
  match lookupK m cid with
  | none => .error "Conversation not found"
  | some c => .ok c

/-- Embeds `ChatBot.delete_conversation` (chat.py lines 275-286); the returned store is
unchanged on the error path, since the Python code raises before mutating. -/
def delete_conversation (m : ConvStore) (cid : String) : ConvStore × Except String Unit :=
  if (lookupK m cid).isSome then (eraseKey m cid, .ok ()) else (m, .error "Conversation not found")

/-- The last `n` elements of a list, Python `l[-n:]`. -/
def lastN {α : Type} (n : Nat) (l : List α) : List α :=
  l.drop (l.length - n)

/-- Embeds `ChatBot._prepare_conversation_context` (chat.py lines 197-228): windows the
history to the last 10 messages.  No code in the repository calls this helper. -/
def prepare_conversation_context (m : ConvStore) (cid : String)
    (additionalContext : Option String) : String :=
  let contextParts :=
    (match additionalContext with
      | some ctx => ["Additional context: " ++ ctx]
      | none => []) ++
    (lastN 10 (messagesOf m cid)).map (fun msg => msg.role ++ ": " ++ msg.content)
  String.intercalate "\n" contextParts

/-- The `formatted_messages` loop of `ChatBot._generate_ai_response`
(chat.py lines 152-156): every stored message except `system` ones, oldest-first,
reduced to its (role, content) payload. -/
def formatMessagesForModel (messages : List Message) : List (String × String) :=
  (messages.filter (fun msg => msg.role ≠ "system")).map (fun msg => (msg.role, msg.content))

/-- The external language-model collaborator (the AWS Bedrock `invoke_model`
call plus response parsing): from the formatted message list to reply text or
a failure. -/
abbrev LLM := List (String × String) → Except String String

/-- Result dictionary of `ChatBot._generate_ai_response` (chat.py lines 184-188). -/
structure AIResponse where
  content : String
  sources : Option (List String)
  confidence : Option ℚ
deriving Repr, DecidableEq

/-- Embeds `ChatBot._generate_ai_response` (chat.py lines 137-195): format the whole
stored history, call the collaborator, and wrap the reply with the placeholder
`sources` and `confidence` values. -/
def generateAIResponse (messages : List Message) (llm : LLM) : Except String AIResponse :=
  match llm (formatMessagesForModel messages) with
  | .error _ => .error "Failed to generate AI response due to a client error."
  | .ok text => .ok { content := text, sources := some [], confidence := some (9/10) }

/-- Return dictionary of `ChatBot.generate_response` (chat.py lines 122-127). -/
structure ChatResult where
  response : String
  conversation_id : String
  sources : Option (List String)
  confidence : ℚ
deriving Repr, DecidableEq

/-- The `if not conversation_id:` block of `ChatBot.generate_response`
(chat.py lines 100-107): mint a fresh id and an empty conversation when no id
(or the empty string, which is falsy in Python) was supplied. -/
def resolveConversation (m : ConvStore) (cid? : Option String) (freshId : String)
    (now : Nat) : ConvStore × String :=
  if cid?.getD "" = "" then
    (setKey m freshId { messages := [], created_at := now, updated_at := now }, freshId)
  else
    (m, cid?.getD "")

/-- Embeds `ChatBot.generate_response` (chat.py lines 76-135).  The store is threaded
explicitly; on a collaborator failure the exception propagates after the user
message was already appended, so the returned store keeps that append. -/
def generate_response (m : ConvStore) (message : String) (cid? : Option String)
    (freshId : String) (now : Nat) (llm : LLM) : ConvStore × Except String ChatResult :=
  let resolved := resolveConversation m cid? freshId now
  let cid := resolved.2
  let m1 := addMessageToConversation resolved.1 cid "user" message now
  match generateAIResponse (messagesOf m1 cid) llm with
  | .error e => (m1, .error e)
  | .ok ai =>
      (addMessageToConversation m1 cid "assistant" ai.content now,
       .ok { response := ai.content, conversation_id := cid,
             sources := ai.sources, confidence := ai.confidence.getD (8/10) })

/-- One entry of `AnalyticsService.interactions` (analytics.py lines 55-65).
`additional_data` is omitted: no claim and no queried field depends on it. -/
structure Interaction where
  user_id : String
  conversation_id : String
  message : String
  response : String
  topic : String
  timestamp : Nat
  message_length : Nat
  response_length : Nat
deriving Repr, DecidableEq

/-- One value of `AnalyticsService.user_sessions` (analytics.py lines 74-79).
The Python `set` of topics is modelled as a duplicate-free list in insertion
order. -/
structure UserSession where
  first_seen : Nat
  last_seen : Nat
  total_interactions : Nat
  topics : List String
deriving Repr, DecidableEq

/-- The mutable fields of `AnalyticsService` (analytics.py lines 29-31). -/
structure AnalyticsState where
  interactions : List Interaction
  topic_counts : List (String × Nat)
  user_sessions : List (String × UserSession)
deriving Repr, DecidableEq

/-- Embeds `AnalyticsService.__init__` (analytics.py lines 24-33). -/
def initialAnalyticsState : AnalyticsState :=
  { interactions := [], topic_counts := [], user_sessions := [] }

/-- Python `set.add`: no-op if present, else insert (at the end, for a list model). -/
def addTopic (ts : List String) (t : String) : List String :=
  if t ∈ ts then ts else ts ++ [t]

/-- The dict-counting pattern `d[t] = d.get(t, 0) + 1`: bump the binding in
place, or append a new one with count 1. -/
def bumpCount (counts : List (String × Nat)) (t : String) : List (String × Nat) :=
  match counts with
  | [] => [(t, 1)]
  | (k, v) :: rest => if k = t then (k, v + 1) :: rest else (k, v) :: bumpCount rest t

/-- Counting a list of topics with the dict pattern, in scan order
(analytics.py lines 116-119, 162-165, 220-223). -/
def countTopics (ts : List String) : List (String × Nat) :=
  ts.foldl bumpCount []

/-- Python `len(set(l))`-style dedup keeping first occurrences. -/
def dedupFirst (l : List String) : List String :=
  l.foldl addTopic []

/-- Embeds `AnalyticsService.log_interaction` (analytics.py lines 35-90): append the
interaction, bump the topic count, and incrementally update the per-user
session (create it first when absent). -/
def log_interaction (st : AnalyticsState) (now : Nat)
    (user_id conversation_id message response topic : String) : AnalyticsState :=
  let i : Interaction :=
    { user_id := user_id, conversation_id := conversation_id, message := message,
      response := response, topic := topic, timestamp := now,
      message_length := message.length, response_length := response.length }
  let s0 : UserSession := match lookupK st.user_sessions user_id with
    | none => { first_seen := now, last_seen := now, total_interactions := 0, topics := [] }
    | some s => s
  let s1 : UserSession :=
    { s0 with
      last_seen := now
      total_interactions := s0.total_interactions + 1
      topics := addTopic s0.topics topic }
  { interactions := st.interactions ++ [i],
    topic_counts := bumpCount st.topic_counts topic,
    user_sessions := setKey st.user_sessions user_id s1 }

/-- Stable descending insertion by count: the earlier element stays in front of
later elements with the same count.  This is the behavior of the Python call
`sorted(..., key=lambda x: x[1], reverse=True)`, which is a stable sort. -/
def insertDesc (x : String × Nat) : List (String × Nat) → List (String × Nat)
  | [] => [x]
  | y :: ys => if y.2 ≤ x.2 then x :: y :: ys else y :: insertDesc x ys

/-- Stable sort by descending count (Python `sorted(items, key=..., reverse=True)`). -/
def sortDescByCount (l : List (String × Nat)) : List (String × Nat) :=
  l.foldr insertDesc []

/-- Embeds `AnalyticsService.get_popular_topics` (analytics.py lines 92-131): filter
the log to the window, count topics in scan order, sort by descending count
(stable), truncate to `limit`. -/
def get_popular_topics (st : AnalyticsState) (now days limit : Nat) :
    List (String × Nat) :=
  let cutoff := now - days * 86400
  let recent := st.interactions.filter (fun i => cutoff ≤ i.timestamp)
  (sortDescByCount (countTopics (recent.map (·.topic)))).take limit

/-- Result of `AnalyticsService.get_user_analytics` (analytics.py lines 167-177).
`avg_message_length` is kept exact (Python applies `round(_, 2)` for display). -/
structure UserAnalytics where
  user_id : String
  first_seen : Nat
  last_seen : Nat
  total_interactions : Nat
  total_messages : Nat
  avg_message_length : ℚ
  topics : List String
  topic_preferences : List (String × Nat)
  session_duration : Nat
deriving Repr, DecidableEq

/-- Embeds `AnalyticsService.get_user_analytics` (analytics.py lines 133-177): error
when no session exists, else the stored session fields next to statistics
recomputed by scanning the log. -/
def get_user_analytics (st : AnalyticsState) (user_id : String) :
    Except String UserAnalytics :=
  match lookupK st.user_sessions user_id with
  | none => .error "User not found"
  | some session =>
    let user_interactions := st.interactions.filter (fun i => i.user_id = user_id)
    let total_messages := user_interactions.length
    let avg : ℚ :=
      if 0 < total_messages then
        ((user_interactions.map (·.message_length)).sum : ℚ) / total_messages
      else 0
    .ok { user_id := user_id, first_seen := session.first_seen,
          last_seen := session.last_seen,
          total_interactions := session.total_interactions,
          total_messages := total_messages, avg_message_length := avg,
          topics := session.topics,
          topic_preferences := countTopics (user_interactions.map (·.topic)),
          session_duration := session.last_seen - session.first_seen }

/-- Result of `AnalyticsService.get_overall_statistics` (analytics.py
lines 200-242), without the redundant `period_start`/`period_end` echoes. -/
structure OverallStats where
  total_interactions : Nat
  unique_users : Nat
  avg_message_length : ℚ
  top_topics : List (String × Nat)
  period_days : Nat
deriving Repr, DecidableEq

/-- Embeds `AnalyticsService.get_overall_statistics` (analytics.py lines 179-242). -/
def get_overall_statistics (st : AnalyticsState) (now days : Nat) : OverallStats :=
  let cutoff := now - days * 86400
  let recent := st.interactions.filter (fun i => cutoff ≤ i.timestamp)
  if recent.isEmpty then
    { total_interactions := 0, unique_users := 0, avg_message_length := 0,
      top_topics := [], period_days := days }
  else
    { total_interactions := recent.length,
      unique_users := (dedupFirst (recent.map (·.user_id))).length,
      avg_message_length := ((recent.map (·.message_length)).sum : ℚ) / recent.length,
      top_topics := (sortDescByCount (countTopics (recent.map (·.topic)))).take 5,
      period_days := days }

/-- Result of `AnalyticsService.get_conversation_analytics` (analytics.py
lines 283-296); averages kept exact as above. -/
structure ConversationAnalytics where
  conversation_id : String
  user_id : String
  total_messages : Nat
  topics : List String
  avg_message_length : ℚ
  avg_response_length : ℚ
  start_time : Nat
  end_time : Nat
  duration_seconds : Nat
deriving Repr, DecidableEq

/-- Embeds `AnalyticsService.get_conversation_analytics` (analytics.py lines 244-296):
error when no logged interaction references the conversation id. -/
def get_conversation_analytics (st : AnalyticsState) (conversation_id : String) :
    Except String ConversationAnalytics :=
  match st.interactions.filter (fun i => i.conversation_id = conversation_id) with
  | [] => .error "Conversation not found"
  | first :: rest =>
    let ci := first :: rest
    .ok { conversation_id := conversation_id, user_id := first.user_id,
          total_messages := ci.length,
          topics := dedupFirst (ci.map (·.topic)),
          avg_message_length := ((ci.map (·.message_length)).sum : ℚ) / ci.length,
          avg_response_length := ((ci.map (·.response_length)).sum : ℚ) / ci.length,
          start_time := first.timestamp,
          end_time := (ci.getLast (by simp)).timestamp,
          duration_seconds := (ci.getLast (by simp)).timestamp - first.timestamp }

/-- Embeds `AnalyticsService.cleanup_old_data` (analytics.py lines 298-327): keep the
interactions at or after the cutoff and the sessions whose `last_seen` is at or
after the cutoff; `topic_counts` is untouched by the Python code. -/
def cleanup_old_data (st : AnalyticsState) (now days : Nat) : AnalyticsState :=
  let cutoff := now - days * 86400
  { interactions := st.interactions.filter (fun i => cutoff ≤ i.timestamp),
    topic_counts := st.topic_counts,
    user_sessions := st.user_sessions.filter (fun p => cutoff ≤ p.2.last_seen) }

/-- Body of a POST /chat request (routes/chat.py `ChatRequest`). -/
structure ChatRequest where
  message : String
  conversation_id : Option String
  user_id : Option String
deriving Repr, DecidableEq

/-- Body of a POST /chat response (routes/chat.py `ChatResponse`). -/
structure ChatResponse where
  response : String
  conversation_id : String
  timestamp : Nat
  sources : Option (List String)
  confidence : Option ℚ
deriving Repr, DecidableEq

/-- Embeds `chat_with_bot` (routes/chat.py lines 57-107): run the orchestrator, log an
interaction only when `request.user_id` is truthy (Python: neither `None` nor
the empty string), and map any raised exception to an HTTP 500. -/
def chat_with_bot (m : ConvStore) (st : AnalyticsState) (req : ChatRequest)
    (freshId : String) (now : Nat) (llm : LLM) :
    ConvStore × AnalyticsState × Except Nat ChatResponse :=
  match generate_response m req.message req.conversation_id freshId now llm with
  | (m', .error _) => (m', st, .error 500)
  | (m', .ok res) =>
    let st' := match req.user_id with
      | some uid =>
          if uid = "" then st
          else log_interaction st now uid res.conversation_id req.message res.response
                 "sleep_science"
      | none => st
    (m', st',
     .ok { response := res.response, conversation_id := res.conversation_id,
           timestamp := now, sources := res.sources, confidence := some res.confidence })

/-- One mutating call on an `AnalyticsService` instance: `log_interaction`
or `cleanup_old_data`, each stamped with the wall-clock time of the call. -/
inductive AnalyticsOp where
  | record (now : Nat) (user_id conversation_id message response topic : String)
  | cleanup (now days : Nat)
deriving Repr, DecidableEq

/-- Whether an operation is a `record` (no `cleanup`). -/
def AnalyticsOp.isRecord : AnalyticsOp → Prop
  | .record _ _ _ _ _ _ => True
  | .cleanup _ _ => False

instance : DecidablePred AnalyticsOp.isRecord := by
  intro op
  cases op <;> simp [AnalyticsOp.isRecord] <;> infer_instance

/-- Apply one operation to the analytics state. -/
def applyOp (st : AnalyticsState) : AnalyticsOp → AnalyticsState
  | .record now uid cid msg resp topic => log_interaction st now uid cid msg resp topic
  | .cleanup now days => cleanup_old_data st now days

/-- Run a sequence of operations from a starting state. -/
def runOps (ops : List AnalyticsOp) (st : AnalyticsState) : AnalyticsState :=
  ops.foldl applyOp st

/-- The incrementally maintained interaction count for a user: the stored session field `total_interactions`, 0 when no session exists. -/
def sessionTotal (st : AnalyticsState) (user_id : String) : Nat :=
  ((lookupK st.user_sessions user_id).map (·.total_interactions)).getD 0

/-- The recomputed interaction count for a user: a scan of the log. -/
def logCount (st : AnalyticsState) (user_id : String) : Nat :=
  (st.interactions.filter (fun i => i.user_id = user_id)).length

/-! ### Basic lemmas about the conversation store operations -/

theorem addMessage_absent {m : ConvStore} {cid : String} (role content : String) (now : Nat)
    (h : lookupK m cid = none) :
    addMessageToConversation m cid role content now =
      setKey m cid
        { messages := [{ role := role, content := content, timestamp := now }],
          created_at := now, updated_at := now } := by
  simp [addMessageToConversation, h]

theorem addMessage_present {m : ConvStore} {cid : String} {c : Conversation}
    (role content : String) (now : Nat) (h : lookupK m cid = some c) :
    addMessageToConversation m cid role content now =
      setKey m cid
        { messages := c.messages ++ [{ role := role, content := content, timestamp := now }],
          created_at := c.created_at, updated_at := now } := by
  simp [addMessageToConversation, h]

theorem messagesOf_setKey_self (m : ConvStore) (k : String) (c : Conversation) :
    messagesOf (setKey m k c) k = c.messages := by
  simp [messagesOf, lookupK_setKey_self]

theorem messagesOf_addMessage_self (m : ConvStore) (cid role content : String) (now : Nat) :
    messagesOf (addMessageToConversation m cid role content now) cid =
      messagesOf m cid ++ [{ role := role, content := content, timestamp := now }] := by
  cases h : lookupK m cid with
  | none => simp [addMessage_absent role content now h, messagesOf, h]
  | some c => simp [addMessage_present role content now h, messagesOf, h]

theorem lookupK_addMessage_self_isSome (m : ConvStore) (cid role content : String) (now : Nat) :
    (lookupK (addMessageToConversation m cid role content now) cid).isSome := by
  cases h : lookupK m cid with
  | none => simp [addMessage_absent role content now h]
  | some c => simp [addMessage_present role content now h]

theorem generateAIResponse_ok {msgs : List Message} {llm : LLM} {ai : AIResponse}
    (h : generateAIResponse msgs llm = .ok ai) :
    ai.sources = some [] ∧ ai.confidence = some (9/10) := by
  unfold generateAIResponse at h
  cases hl : llm (formatMessagesForModel msgs) with
  | error e => rw [hl] at h; cases h
  | ok t =>
    rw [hl] at h
    cases h
    exact ⟨rfl, rfl⟩

theorem generate_response_ok {m m' : ConvStore} {message : String} {cid? : Option String}
    {freshId : String} {now : Nat} {llm : LLM} {res : ChatResult}
    (h : generate_response m message cid? freshId now llm = (m', .ok res)) :
    res.confidence = 9/10 ∧ (lookupK m' res.conversation_id).isSome := by
  simp only [generate_response] at h
  cases hg : generateAIResponse
      (messagesOf (addMessageToConversation (resolveConversation m cid? freshId now).1
        (resolveConversation m cid? freshId now).2 "user" message now)
        (resolveConversation m cid? freshId now).2) llm with
  | error e => rw [hg] at h; cases h
  | ok ai =>
    rw [hg] at h
    cases h
    refine ⟨?_, lookupK_addMessage_self_isSome _ _ _ _ _⟩
    rw [(generateAIResponse_ok hg).2]
    rfl

/-! ### Claim theorems -/

/-- C6: `delete_conversation` on an existing conversation removes the
conversation (and, with it, all its messages), so a subsequent
`get_conversation_history` on the same id fails with the not-found error;
`delete_conversation` on an absent id fails with the not-found error and
leaves the store unchanged. -/
theorem C6_delete_semantics : ∀ (m : ConvStore) (cid : String),
    ((lookupK m cid).isSome →
      delete_conversation m cid = (eraseKey m cid, .ok ()) ∧
      lookupK (eraseKey m cid) cid = none ∧
      get_conversation_history (eraseKey m cid) cid = .error "Conversation not found") ∧
    (lookupK m cid = none →
      delete_conversation m cid = (m, .error "Conversation not found")) := by
  intro m cid
  constructor
  · intro h
    refine ⟨by simp [delete_conversation, h], lookupK_eraseKey_self m cid, ?_⟩
    simp [get_conversation_history, lookupK_eraseKey_self]
  · intro h
    simp [delete_conversation, h]

/-- Witness for C6 at a one-conversation store and at the empty store. -/
theorem C6_delete_semantics_witness :
    (lookupK ([("a", ⟨[], 0, 0⟩)] : ConvStore) "a").isSome ∧
    (delete_conversation [("a", ⟨[], 0, 0⟩)] "a" = (eraseKey [("a", ⟨[], 0, 0⟩)] "a", .ok ()) ∧
      lookupK (eraseKey ([("a", ⟨[], 0, 0⟩)] : ConvStore) "a") "a" = none ∧
      get_conversation_history (eraseKey [("a", ⟨[], 0, 0⟩)] "a") "a" =
        .error "Conversation not found") ∧
    lookupK ([] : ConvStore) "b" = none ∧
    delete_conversation ([] : ConvStore) "b" = (([] : ConvStore), .error "Conversation not found") :=
  ⟨by decide, (C6_delete_semantics [("a", ⟨[], 0, 0⟩)] "a").1 (by decide), rfl,
   (C6_delete_semantics ([] : ConvStore) "b").2 rfl⟩

/-- C4: a chat call supplying a conversation id that is not in the store is
treated as valid: the call succeeds (no not-found failure), the result carries
exactly the supplied id, and a fresh conversation is silently created under
that id with `created_at` and `updated_at` set and the user (then assistant)
message appended. -/
theorem C4_unknown_id_creates :
    ∀ (m : ConvStore) (cid message freshId : String) (now : Nat) (llm : LLM) (text : String),
    cid ≠ "" →
    lookupK m cid = none →
    llm (formatMessagesForModel [{ role := "user", content := message, timestamp := now }]) =
      .ok text →
    (generate_response m message (some cid) freshId now llm).2 =
      .ok { response := text, conversation_id := cid, sources := some [],
            confidence := 9/10 } ∧
    lookupK (generate_response m message (some cid) freshId now llm).1 cid =
      some { messages := [{ role := "user", content := message, timestamp := now },
                          { role := "assistant", content := text, timestamp := now }],
             created_at := now, updated_at := now } := by
  intro m cid message freshId now llm text hcid habsent hllm
  have hres : resolveConversation m (some cid) freshId now = (m, cid) := by
    simp [resolveConversation, hcid]
  have huser : addMessageToConversation m cid "user" message now =
      setKey m cid
        { messages := [{ role := "user", content := message, timestamp := now }],
          created_at := now, updated_at := now } :=
    addMessage_absent _ _ _ habsent
  have hmsgs : messagesOf (addMessageToConversation m cid "user" message now) cid =
      [{ role := "user", content := message, timestamp := now }] := by
    rw [huser]
    simp [messagesOf, lookupK_setKey_self]
  have hai : generateAIResponse
      (messagesOf (addMessageToConversation m cid "user" message now) cid) llm =
      .ok { content := text, sources := some [], confidence := some (9/10) } := by
    rw [hmsgs]
    simp [generateAIResponse, hllm]
  have hlook : lookupK (addMessageToConversation m cid "user" message now) cid =
      some { messages := [{ role := "user", content := message, timestamp := now }],
             created_at := now, updated_at := now } := by
    rw [huser]
    exact lookupK_setKey_self _ _ _
  constructor
  · simp [generate_response, hres, hai]
  · simp only [generate_response, hres, hai]
    rw [addMessage_present _ _ _ hlook]
    simp [lookupK_setKey_self]

/-- Witness for C4: id "xyz" unknown to the empty store. -/
theorem C4_unknown_id_creates_witness :
    ("xyz" ≠ "" ∧ lookupK ([] : ConvStore) "xyz" = none ∧
      (fun _ => .ok "hello" : LLM)
          (formatMessagesForModel [{ role := "user", content := "hi", timestamp := 7 }]) =
        .ok "hello") ∧
    (generate_response ([] : ConvStore) "hi" (some "xyz") "fresh" 7
        (fun _ => .ok "hello")).2 =
      .ok { response := "hello", conversation_id := "xyz", sources := some [],
            confidence := 9/10 } ∧
    lookupK (generate_response ([] : ConvStore) "hi" (some "xyz") "fresh" 7
        (fun _ => .ok "hello")).1 "xyz" =
      some { messages := [{ role := "user", content := "hi", timestamp := 7 },
                          { role := "assistant", content := "hello", timestamp := 7 }],
             created_at := 7, updated_at := 7 } :=
  ⟨⟨by decide, rfl, rfl⟩,
   C4_unknown_id_creates ([] : ConvStore) "xyz" "hi" "fresh" 7 (fun _ => .ok "hello") "hello"
     (by decide) rfl rfl⟩

/-- C9: on every successful chat call the confidence returned to the caller is
exactly 9/10 (0.9): the collaborator wrapper always fills in the hard-coded
0.9, so the 8/10 (0.8) fallback in `generate_response` is dead on every
successful path. -/
theorem C9_confidence_always_nine_tenths :
    ∀ (m : ConvStore) (st : AnalyticsState) (req : ChatRequest) (freshId : String)
      (now : Nat) (llm : LLM) (m' : ConvStore) (st' : AnalyticsState) (resp : ChatResponse),
    chat_with_bot m st req freshId now llm = (m', st', .ok resp) →
    resp.confidence = some (9/10) := by
  intro m st req freshId now llm m' st' resp h
  unfold chat_with_bot at h
  cases hg : generate_response m req.message req.conversation_id freshId now llm with
  | mk m₀ r =>
    rw [hg] at h
    cases r with
    | error e => cases h
    | ok res =>
      simp only at h
      have hconf : res.confidence = 9/10 := (generate_response_ok hg).1
      cases h
      simp [hconf]

/-- Witness for C9: a concrete successful call through the route. -/
theorem C9_confidence_witness :
    chat_with_bot ([] : ConvStore) initialAnalyticsState
        { message := "hi", conversation_id := none, user_id := none } "f" 0
        (fun _ => .ok "r") =
      ([("f", { messages := [{ role := "user", content := "hi", timestamp := 0 },
                             { role := "assistant", content := "r", timestamp := 0 }],
                created_at := 0, updated_at := 0 })],
       initialAnalyticsState,
       .ok { response := "r", conversation_id := "f", timestamp := 0,
             sources := some [], confidence := some (9/10) }) ∧
    (ChatResponse.confidence
      { response := "r", conversation_id := "f", timestamp := 0,
        sources := some [], confidence := some (9/10) }) = some (9/10) := by
  constructor
  · rfl
  · exact C9_confidence_always_nine_tenths ([] : ConvStore) initialAnalyticsState
      { message := "hi", conversation_id := none, user_id := none } "f" 0
      (fun _ => .ok "r") _ _ _ rfl

/-- C3: when the collaborator fails, the whole chat call aborts: the caller
gets the distinguishable HTTP-500 generation-failed error rather than a
success, the analytics log records nothing, and the conversation gains only
the already-appended user message (no assistant message). -/
theorem C3_llm_failure_aborts :
    ∀ (m : ConvStore) (st : AnalyticsState) (req : ChatRequest) (freshId : String)
      (now : Nat) (llm : LLM) (e : String),
    (∀ input, llm input = .error e) →
    (chat_with_bot m st req freshId now llm).2.2 = .error 500 ∧
    (chat_with_bot m st req freshId now llm).2.1 = st ∧
    messagesOf (chat_with_bot m st req freshId now llm).1
        (if req.conversation_id.getD "" = "" then freshId else req.conversation_id.getD "") =
      (if req.conversation_id.getD "" = "" then []
       else messagesOf m (req.conversation_id.getD "")) ++
      [{ role := "user", content := req.message, timestamp := now }] := by
  intro m st req freshId now llm e hfail
  have hai : ∀ msgs, generateAIResponse msgs llm =
      .error "Failed to generate AI response due to a client error." := by
    intro msgs
    simp [generateAIResponse, hfail]
  by_cases hfresh : req.conversation_id.getD "" = ""
  · have hres : resolveConversation m req.conversation_id freshId now =
        (setKey m freshId { messages := [], created_at := now, updated_at := now }, freshId) := by
      simp [resolveConversation, hfresh]
    refine ⟨?_, ?_, ?_⟩ <;>
      simp [chat_with_bot, generate_response, hres, hai, hfresh,
        messagesOf_addMessage_self, messagesOf_setKey_self]
  · have hres : resolveConversation m req.conversation_id freshId now =
        (m, req.conversation_id.getD "") := by
      simp [resolveConversation, hfresh]
    refine ⟨?_, ?_, ?_⟩ <;>
      simp [chat_with_bot, generate_response, hres, hai, hfresh, messagesOf_addMessage_self]

/-- Witness for C3: a failing collaborator against a one-conversation store. -/
theorem C3_llm_failure_aborts_witness :
    ((∀ input, (fun _ => .error "boom" : LLM) input = .error "boom") ∧
      (chat_with_bot [("c", ⟨[], 0, 0⟩)] initialAnalyticsState
          { message := "q", conversation_id := some "c", user_id := some "u" } "f" 3
          (fun _ => .error "boom")).2.2 = .error 500 ∧
      (chat_with_bot [("c", ⟨[], 0, 0⟩)] initialAnalyticsState
          { message := "q", conversation_id := some "c", user_id := some "u" } "f" 3
          (fun _ => .error "boom")).2.1 = initialAnalyticsState ∧
      messagesOf (chat_with_bot [("c", ⟨[], 0, 0⟩)] initialAnalyticsState
          { message := "q", conversation_id := some "c", user_id := some "u" } "f" 3
          (fun _ => .error "boom")).1 "c" =
        [{ role := "user", content := "q", timestamp := 3 }]) := by
  have h := C3_llm_failure_aborts [("c", ⟨[], 0, 0⟩)] initialAnalyticsState
    { message := "q", conversation_id := some "c", user_id := some "u" } "f" 3
    (fun _ => .error "boom") "boom" (fun _ => rfl)
  refine ⟨fun _ => rfl, h.1, h.2.1, ?_⟩
  have h3 := h.2.2
  simpa [messagesOf] using h3

/-- C8: for every retention parameter, `cleanup_old_data` keeps exactly the
interactions with timestamp at or after `now - days` (removing exactly the
strictly older ones and none newer), drops exactly the per-user sessions whose
`last_seen` predates the cutoff, and a subsequent overview over the same
window reflects only the retained interactions. -/
theorem C8_cleanup_exact :
    ∀ (st : AnalyticsState) (now days : Nat),
    (∀ i, i ∈ (cleanup_old_data st now days).interactions ↔
        i ∈ st.interactions ∧ now - days * 86400 ≤ i.timestamp) ∧
    (cleanup_old_data st now days).interactions =
      st.interactions.filter (fun i => now - days * 86400 ≤ i.timestamp) ∧
    (∀ s, s ∈ (cleanup_old_data st now days).user_sessions ↔
        s ∈ st.user_sessions ∧ now - days * 86400 ≤ s.2.last_seen) ∧
    get_overall_statistics (cleanup_old_data st now days) now days =
      get_overall_statistics st now days := by
  intro st now days
  refine ⟨?_, rfl, ?_, ?_⟩
  · intro i
    simp [cleanup_old_data, List.mem_filter]
  · intro s
    simp [cleanup_old_data, List.mem_filter]
  · simp [get_overall_statistics, cleanup_old_data, List.filter_filter]

/-- Witness for C8 on a two-interaction state: the old interaction and the
stale session are dropped, the recent ones are kept. -/
theorem C8_cleanup_exact_witness :
    (cleanup_old_data
        { interactions :=
            [{ user_id := "u", conversation_id := "c", message := "a", response := "b",
               topic := "t", timestamp := 0, message_length := 1, response_length := 1 },
             { user_id := "v", conversation_id := "c", message := "a", response := "b",
               topic := "t", timestamp := 99000, message_length := 1, response_length := 1 }],
          topic_counts := [("t", 2)],
          user_sessions :=
            [("u", { first_seen := 0, last_seen := 0, total_interactions := 1, topics := ["t"] }),
             ("v", { first_seen := 99000, last_seen := 99000, total_interactions := 1,
                     topics := ["t"] })] }
        100000 1).interactions =
      [{ user_id := "v", conversation_id := "c", message := "a", response := "b",
         topic := "t", timestamp := 99000, message_length := 1, response_length := 1 }] := by
  have h := (C8_cleanup_exact
    { interactions :=
        [{ user_id := "u", conversation_id := "c", message := "a", response := "b",
           topic := "t", timestamp := 0, message_length := 1, response_length := 1 },
         { user_id := "v", conversation_id := "c", message := "a", response := "b",
           topic := "t", timestamp := 99000, message_length := 1, response_length := 1 }],
      topic_counts := [("t", 2)],
      user_sessions :=
        [("u", { first_seen := 0, last_seen := 0, total_interactions := 1, topics := ["t"] }),
         ("v", { first_seen := 99000, last_seen := 99000, total_interactions := 1,
                 topics := ["t"] })] }
    100000 1).2.1
  rw [h]
  decide

/-- C10: a conversation whose chat exchanges all omitted `user_id` is present
in the conversation store (`get_conversation_history` succeeds on the returned
id), yet the analytics state is untouched, so when no logged interaction
references the id, `get_conversation_analytics` fails with the not-found
error. -/
theorem C10_no_user_id_no_interaction :
    ∀ (m : ConvStore) (st : AnalyticsState) (req : ChatRequest) (freshId : String)
      (now : Nat) (llm : LLM) (m' : ConvStore) (st' : AnalyticsState) (resp : ChatResponse),
    req.user_id = none →
    chat_with_bot m st req freshId now llm = (m', st', .ok resp) →
    st' = st ∧
    (∃ c, get_conversation_history m' resp.conversation_id = .ok c) ∧
    ((∀ i ∈ st.interactions, i.conversation_id ≠ resp.conversation_id) →
      get_conversation_analytics st' resp.conversation_id = .error "Conversation not found") := by
  intro m st req freshId now llm m' st' resp huid h
  unfold chat_with_bot at h
  cases hg : generate_response m req.message req.conversation_id freshId now llm with
  | mk m₀ r =>
    rw [hg] at h
    cases r with
    | error e => cases h
    | ok res =>
      simp only [huid] at h
      rw [Prod.ext_iff] at h
      obtain ⟨h1, h23⟩ := h
      rw [Prod.ext_iff] at h23
      obtain ⟨h2, h3⟩ := h23
      subst h1
      subst h2
      injection h3 with h4
      subst h4
      have hsome : (lookupK m₀ res.conversation_id).isSome := (generate_response_ok hg).2
      refine ⟨rfl, ?_, ?_⟩
      · cases hl : lookupK m₀ res.conversation_id with
        | none => rw [hl] at hsome; cases hsome
        | some c => exact ⟨c, by simp [get_conversation_history, hl]⟩
      · intro hnone
        have hfilter : st.interactions.filter
            (fun i => i.conversation_id = res.conversation_id) = [] := by
          rw [List.filter_eq_nil_iff]
          intro i hi
          simpa using hnone i hi
        simp only [get_conversation_analytics]
        rw [hfilter]

/-- Witness for C10: one chat exchange with no user id on empty stores. -/
theorem C10_no_user_id_witness :
    (chat_with_bot ([] : ConvStore) initialAnalyticsState
        { message := "hi", conversation_id := none, user_id := none } "f" 0
        (fun _ => .ok "r") =
      ([("f", { messages := [{ role := "user", content := "hi", timestamp := 0 },
                             { role := "assistant", content := "r", timestamp := 0 }],
                created_at := 0, updated_at := 0 })],
       initialAnalyticsState,
       .ok { response := "r", conversation_id := "f", timestamp := 0,
             sources := some [], confidence := some (9/10) })) ∧
    initialAnalyticsState = initialAnalyticsState ∧
    (∃ c, get_conversation_history
        [("f", { messages := [{ role := "user", content := "hi", timestamp := 0 },
                              { role := "assistant", content := "r", timestamp := 0 }],
                 created_at := 0, updated_at := 0 })] "f" = .ok c) ∧
    get_conversation_analytics initialAnalyticsState "f" = .error "Conversation not found" := by
  have h := C10_no_user_id_no_interaction ([] : ConvStore) initialAnalyticsState
    { message := "hi", conversation_id := none, user_id := none } "f" 0
    (fun _ => .ok "r") _ _ _ rfl rfl
  exact ⟨rfl, h.1, h.2.1, h.2.2 (by intro i hi; cases hi)⟩

/-! ### Sortedness of the topic ranking -/

theorem mem_insertDesc (x z : String × Nat) (l : List (String × Nat)) :
    z ∈ insertDesc x l ↔ z = x ∨ z ∈ l := by
  induction l with
  | nil => simp [insertDesc]
  | cons y ys ih =>
    rw [insertDesc]
    by_cases hc : y.2 ≤ x.2
    · simp only [if_pos hc, List.mem_cons]
    · simp only [if_neg hc, List.mem_cons, ih]
      tauto

theorem pairwise_insertDesc (x : String × Nat) (l : List (String × Nat))
    (h : l.Pairwise (fun a b => b.2 ≤ a.2)) :
    (insertDesc x l).Pairwise (fun a b => b.2 ≤ a.2) := by
  induction l with
  | nil => simp [insertDesc]
  | cons y ys ih =>
    rw [List.pairwise_cons] at h
    by_cases hc : y.2 ≤ x.2
    · rw [insertDesc, if_pos hc, List.pairwise_cons]
      refine ⟨?_, List.pairwise_cons.mpr h⟩
      intro z hz
      rcases List.mem_cons.mp hz with hz | hz
      · exact hz ▸ hc
      · exact le_trans (h.1 z hz) hc
    · rw [insertDesc, if_neg hc, List.pairwise_cons]
      refine ⟨?_, ih h.2⟩
      intro z hz
      rcases (mem_insertDesc x z ys).mp hz with hz | hz
      · exact hz ▸ le_of_not_le hc
      · exact h.1 z hz

theorem sortDescByCount_pairwise (l : List (String × Nat)) :
    (sortDescByCount l).Pairwise (fun a b => b.2 ≤ a.2) := by
  induction l with
  | nil => simp [sortDescByCount]
  | cons x xs ih => exact pairwise_insertDesc x _ ih

/-- An interaction with the given topic and timestamp, for concrete examples. -/
def c7i (t : String) (n : Nat) : Interaction :=
  { user_id := "u", conversation_id := "c", message := "m", response := "r",
    topic := t, timestamp := n, message_length := 1, response_length := 1 }

/-- The interaction log used in the C7 tie-breaking instance: topics occur in
scan order A, B, C, A, B, C, A, B, A, B, A, B, giving counts A:5, B:5, C:2
with the first occurrence of A before that of B. -/
def c7State : AnalyticsState :=
  { interactions :=
      [c7i "A" 0, c7i "B" 1, c7i "C" 2, c7i "A" 3, c7i "B" 4, c7i "C" 5,
       c7i "A" 6, c7i "B" 7, c7i "A" 8, c7i "B" 9, c7i "A" 10, c7i "B" 11],
    topic_counts := [], user_sessions := [] }

/-- C7: `get_popular_topics` returns at most `limit` topics, ordered by
non-increasing count; on the log with counts {A:5, B:5, C:2} it ranks both A
and B above C and breaks the A/B tie by first occurrence in the scan (A first),
deterministically. -/
theorem C7_popular_topics_ranking :
    (∀ (st : AnalyticsState) (now days limit : Nat),
      (get_popular_topics st now days limit).length ≤ limit ∧
      (get_popular_topics st now days limit).Pairwise (fun a b => b.2 ≤ a.2)) ∧
    get_popular_topics c7State 0 0 10 = [("A", 5), ("B", 5), ("C", 2)] := by
  constructor
  · intro st now days limit
    constructor
    · exact List.length_take_le _ _
    · exact (sortDescByCount_pairwise _).sublist (List.take_sublist _ _)
  · decide

/-! ### Repeated appends on one conversation (C5) -/

/-- One `append_message` call: role, content, and the wall-clock time of the call. -/
structure AppendCall where
  role : String
  content : String
  time : Nat
deriving Repr, DecidableEq

/-- The message a call appends (chat.py lines 251-255). -/
def mkMsg (c : AppendCall) : Message :=
  { role := c.role, content := c.content, timestamp := c.time }

/-- Run a sequence of `_add_message_to_conversation` calls on one conversation. -/
def appendMany (m : ConvStore) (cid : String) (calls : List AppendCall) : ConvStore :=
  calls.foldl (fun acc c => addMessageToConversation acc cid c.role c.content c.time) m

/-- A store holding one freshly created empty conversation, as built by
`generate_response` for a new id (chat.py lines 103-107). -/
def freshStore (cid : String) (t0 : Nat) : ConvStore :=
  [(cid, { messages := [], created_at := t0, updated_at := t0 })]

/-- The `updated_at` of the conversation after the first `k` append calls (0 when the
conversation is absent, which never happens here). -/
def updatedAfter (cid : String) (t0 : Nat) (calls : List AppendCall) (k : Nat) : Nat :=
  ((lookupK (appendMany (freshStore cid t0) cid (calls.take k)) cid).map (·.updated_at)).getD 0

theorem appendMany_lookup (cid : String) (calls : List AppendCall) :
    ∀ (m : ConvStore) (conv : Conversation), lookupK m cid = some conv →
    lookupK (appendMany m cid calls) cid =
      some { messages := conv.messages ++ calls.map mkMsg,
             created_at := conv.created_at,
             updated_at := (calls.map (·.time)).getLastD conv.updated_at } := by
  induction calls with
  | nil =>
    intro m conv h
    simpa [appendMany] using h
  | cons c cs ih =>
    intro m conv h
    have h1 : lookupK (addMessageToConversation m cid c.role c.content c.time) cid =
        some { messages := conv.messages ++ [mkMsg c], created_at := conv.created_at,
               updated_at := c.time } := by
      rw [addMessage_present _ _ _ h]
      exact lookupK_setKey_self _ _ _
    have h2 := ih _ _ h1
    rw [show appendMany m cid (c :: cs) =
        appendMany (addMessageToConversation m cid c.role c.content c.time) cid cs from rfl]
    rw [h2]
    simp only [List.map_cons, List.getLastD_cons, List.append_assoc, List.singleton_append]

theorem chain_le_getLastD (d : Nat) (l : List Nat) (h : List.Chain (· ≤ ·) d l) :
    d ≤ l.getLastD d := by
  induction l generalizing d with
  | nil => exact le_refl d
  | cons t ts ih =>
    rw [List.chain_cons] at h
    rw [List.getLastD_cons]
    exact le_trans h.1 (ih t h.2)

theorem getLastD_take_mono (d : Nat) (l : List Nat) (h : List.Chain (· ≤ ·) d l) :
    ∀ k, (l.take k).getLastD d ≤ (l.take (k + 1)).getLastD d := by
  induction l generalizing d with
  | nil => intro k; simp
  | cons t ts ih =>
    intro k
    rw [List.chain_cons] at h
    cases k with
    | zero => simpa using h.1
    | succ k' =>
      rw [List.take_succ_cons, List.take_succ_cons, List.getLastD_cons, List.getLastD_cons]
      exact ih t h.2 k'

/-- C5: starting from a freshly created conversation at time `t0`, a sequence
of N `append_message` calls with non-decreasing call times yields a history of
exactly the N appended messages in call order; `created_at` stays `t0`,
`updated_at` is refreshed to the last call time (hence `updated_at ≥
created_at`) and is monotonically non-decreasing across the appends. -/
theorem C5_history_after_appends :
    ∀ (cid : String) (t0 : Nat) (calls : List AppendCall),
    List.Chain (· ≤ ·) t0 (calls.map (·.time)) →
    get_conversation_history (appendMany (freshStore cid t0) cid calls) cid =
      .ok { messages := calls.map mkMsg, created_at := t0,
            updated_at := (calls.map (·.time)).getLastD t0 } ∧
    (calls.map mkMsg).length = calls.length ∧
    t0 ≤ (calls.map (·.time)).getLastD t0 ∧
    (∀ k, updatedAfter cid t0 calls k ≤ updatedAfter cid t0 calls (k + 1)) := by
  intro cid t0 calls hchain
  have hfresh : lookupK (freshStore cid t0) cid =
      some { messages := [], created_at := t0, updated_at := t0 } := by
    simp [freshStore, lookupK]
  have hmain := appendMany_lookup cid calls _ _ hfresh
  have hupd : ∀ k, updatedAfter cid t0 calls k =
      ((calls.map (·.time)).take k).getLastD t0 := by
    intro k
    have h := appendMany_lookup cid (calls.take k) _ _ hfresh
    rw [updatedAfter, h]
    simp [List.map_take]
  refine ⟨?_, List.length_map _ _, chain_le_getLastD _ _ hchain, ?_⟩
  · rw [get_conversation_history, hmain]
    simp
  · intro k
    rw [hupd k, hupd (k + 1)]
    exact getLastD_take_mono t0 _ hchain k

/-- The two append calls of the C5 witness: times 1 then 2. -/
def c5Calls : List AppendCall :=
  [{ role := "user", content := "a", time := 1 },
   { role := "assistant", content := "b", time := 2 }]

theorem c5Calls_chain : List.Chain (· ≤ ·) 0 (c5Calls.map (·.time)) := by
  simp [c5Calls, List.chain_cons]

/-- Witness for C5: two appends at times 1 and 2 on a conversation created at 0. -/
theorem C5_history_after_appends_witness :
    List.Chain (· ≤ ·) 0 (c5Calls.map (·.time)) ∧
    (get_conversation_history (appendMany (freshStore "c" 0) "c" c5Calls) "c" =
      .ok { messages := c5Calls.map mkMsg, created_at := 0,
            updated_at := (c5Calls.map (·.time)).getLastD 0 } ∧
     (c5Calls.map mkMsg).length = c5Calls.length ∧
     0 ≤ (c5Calls.map (·.time)).getLastD 0 ∧
     (∀ k, updatedAfter "c" 0 c5Calls k ≤ updatedAfter "c" 0 c5Calls (k + 1))) :=
  ⟨c5Calls_chain, C5_history_after_appends "c" 0 c5Calls c5Calls_chain⟩

/-! ### Context windowing (C1) -/

/-- Modelled from the spec: the context-windowing sentence of §4.1 — "when
constructing model input, only the most recent N messages (N=10 in the
reference behavior) are included, oldest-first".  This definition exists only
to compare the model input claimed by the spec against `formatMessagesForModel`,
the input the code actually builds. -/
def specWindowedModelInput (messages : List Message) : List (String × String) :=
  formatMessagesForModel (lastN 10 messages)

/-- An eleven-message conversation history (all `user`/`assistant` roles). -/
def c1Messages : List Message :=
  [{ role := "user", content := "m0", timestamp := 0 },
   { role := "assistant", content := "m1", timestamp := 1 },
   { role := "user", content := "m2", timestamp := 2 },
   { role := "assistant", content := "m3", timestamp := 3 },
   { role := "user", content := "m4", timestamp := 4 },
   { role := "assistant", content := "m5", timestamp := 5 },
   { role := "user", content := "m6", timestamp := 6 },
   { role := "assistant", content := "m7", timestamp := 7 },
   { role := "user", content := "m8", timestamp := 8 },
   { role := "assistant", content := "m9", timestamp := 9 },
   { role := "user", content := "m10", timestamp := 10 }]

/-- The eleven-message conversation of the C1 instance. -/
def c1Conv : Conversation :=
  { messages := c1Messages, created_at := 0, updated_at := 10 }

/-- A store holding the eleven-message conversation under id "c". -/
def c1Store : ConvStore :=
  [("c", c1Conv)]

/-- A collaborator that reports how many messages it was given, making the
size of the model input observable in the chat result. -/
def countingLLM : LLM := fun input => .ok (toString input.length)

/-- Counterexample to C1: on a conversation that already has 11 messages, the
model input built for the collaborator contains all 12 messages (the 11 stored
ones plus the new user message), not the most recent 10: the collaborator
observes length 12, and the model input of the code differs from the spec
10-window input (which has length 10). -/
theorem C1_counterexample_no_windowing :
    (generate_response c1Store "m11" (some "c") "fresh" 11 countingLLM).2 =
      .ok { response := "12", conversation_id := "c", sources := some [],
            confidence := 9/10 } ∧
    formatMessagesForModel
        (messagesOf (addMessageToConversation c1Store "c" "user" "m11" 11) "c") ≠
      specWindowedModelInput
        (messagesOf (addMessageToConversation c1Store "c" "user" "m11" 11) "c") ∧
    (formatMessagesForModel
        (messagesOf (addMessageToConversation c1Store "c" "user" "m11" 11) "c")).length = 12 ∧
    (specWindowedModelInput
        (messagesOf (addMessageToConversation c1Store "c" "user" "m11" 11) "c")).length = 10 := by
  refine ⟨?_, by decide, by decide, by decide⟩
  rfl

/-- C1 amended: when constructing the collaborator input for a conversation
whose stored messages carry no `system` role, the orchestrator includes ALL
messages — the full prior history plus the just-appended user message,
oldest-first — with no 10-message truncation (the window exists only in the
unused helper `_prepare_conversation_context`). -/
theorem C1_amended_all_messages :
    ∀ (m : ConvStore) (cid message : String) (now : Nat) (c : Conversation),
    lookupK m cid = some c →
    (∀ msg ∈ c.messages, msg.role ≠ "system") →
    formatMessagesForModel
        (messagesOf (addMessageToConversation m cid "user" message now) cid) =
      (c.messages ++ [({ role := "user", content := message, timestamp := now } : Message)]).map
        (fun msg => (msg.role, msg.content)) ∧
    (formatMessagesForModel
        (messagesOf (addMessageToConversation m cid "user" message now) cid)).length =
      c.messages.length + 1 := by
  intro m cid message now c h hall
  have hmsgs : messagesOf (addMessageToConversation m cid "user" message now) cid =
      c.messages ++ [({ role := "user", content := message, timestamp := now } : Message)] := by
    rw [messagesOf_addMessage_self]
    simp [messagesOf, h]
  have hfilter : (c.messages ++
      [({ role := "user", content := message, timestamp := now } : Message)]).filter
        (fun msg => msg.role ≠ "system") =
      c.messages ++ [({ role := "user", content := message, timestamp := now } : Message)] := by
    rw [List.filter_eq_self]
    intro a ha
    rcases List.mem_append.mp ha with ha | ha
    · simpa using hall a ha
    · rcases List.mem_singleton.mp ha with rfl
      simp
  constructor
  · rw [hmsgs, formatMessagesForModel, hfilter]
  · rw [hmsgs, formatMessagesForModel, hfilter]
    simp

/-- Witness for C1 amended, on the eleven-message conversation. -/
theorem C1_amended_all_messages_witness :
    (lookupK c1Store "c" = some c1Conv ∧
      (∀ msg ∈ c1Conv.messages, msg.role ≠ "system")) ∧
    (formatMessagesForModel
        (messagesOf (addMessageToConversation c1Store "c" "user" "m11" 11) "c") =
      (c1Conv.messages ++
        [({ role := "user", content := "m11", timestamp := 11 } : Message)]).map
        (fun msg => (msg.role, msg.content)) ∧
     (formatMessagesForModel
        (messagesOf (addMessageToConversation c1Store "c" "user" "m11" 11) "c")).length =
      c1Conv.messages.length + 1) :=
  ⟨⟨rfl, by decide⟩,
   C1_amended_all_messages c1Store "c" "m11" 11 c1Conv rfl (by decide)⟩

/-! ### Incremental session state vs. recomputed log scan (C2) -/

theorem sessionTotal_log_self (st : AnalyticsState) (now : Nat)
    (uid cid msg resp topic : String) :
    sessionTotal (log_interaction st now uid cid msg resp topic) uid =
      sessionTotal st uid + 1 := by
  unfold log_interaction sessionTotal
  cases h : lookupK st.user_sessions uid <;> simp [h, lookupK_setKey_self]

theorem sessionTotal_log_other (st : AnalyticsState) (now : Nat)
    (uid cid msg resp topic u : String) (hu : uid ≠ u) :
    sessionTotal (log_interaction st now uid cid msg resp topic) u =
      sessionTotal st u := by
  unfold log_interaction sessionTotal
  rw [lookupK_setKey_ne _ _ _ _ (fun h' => hu h'.symm)]

theorem logCount_log_self (st : AnalyticsState) (now : Nat)
    (uid cid msg resp topic : String) :
    logCount (log_interaction st now uid cid msg resp topic) uid =
      logCount st uid + 1 := by
  unfold log_interaction logCount
  simp [List.filter_append]

theorem logCount_log_other (st : AnalyticsState) (now : Nat)
    (uid cid msg resp topic u : String) (hu : uid ≠ u) :
    logCount (log_interaction st now uid cid msg resp topic) u =
      logCount st u := by
  unfold log_interaction logCount
  simp [List.filter_append, hu]

theorem runOps_records_preserve (ops : List AnalyticsOp) :
    ∀ (st : AnalyticsState), (∀ op ∈ ops, op.isRecord) →
    (∀ u, sessionTotal st u = logCount st u) →
    ∀ u, sessionTotal (runOps ops st) u = logCount (runOps ops st) u := by
  induction ops with
  | nil => intro st _ hinv u; exact hinv u
  | cons op ops ih =>
    intro st hrec hinv u
    rw [show runOps (op :: ops) st = runOps ops (applyOp st op) from rfl]
    refine ih (applyOp st op) (fun o ho => hrec o (List.mem_cons_of_mem op ho)) ?_ u
    intro v
    cases op with
    | cleanup n d => exact absurd (hrec _ (List.mem_cons_self _ _)) (by simp [AnalyticsOp.isRecord])
    | record n uid cid msg resp topic =>
      by_cases hv : uid = v
      · subst hv
        rw [show applyOp st (.record n uid cid msg resp topic) =
            log_interaction st n uid cid msg resp topic from rfl,
          sessionTotal_log_self, logCount_log_self, hinv uid]
      · rw [show applyOp st (.record n uid cid msg resp topic) =
            log_interaction st n uid cid msg resp topic from rfl,
          sessionTotal_log_other _ _ _ _ _ _ _ _ hv, logCount_log_other _ _ _ _ _ _ _ _ hv,
          hinv v]

/-- For every sequence of `log_interaction` calls (no cleanup) starting from a
fresh service, the incrementally maintained `total_interactions` of the session of every
user equals the count of the interactions of that user recomputed by
scanning the log — the two strategies of the spec agree as long as
`cleanup_old_data` is never run. -/
theorem record_only_session_equals_scan :
    ∀ (ops : List AnalyticsOp), (∀ op ∈ ops, op.isRecord) →
    ∀ u, sessionTotal (runOps ops initialAnalyticsState) u =
      logCount (runOps ops initialAnalyticsState) u := by
  intro ops hrec u
  exact runOps_records_preserve ops initialAnalyticsState hrec
    (fun v => by simp [initialAnalyticsState, sessionTotal, logCount]) u

/-- The operation sequence on which the incremental and the recomputed counts
diverge: two interactions of user "u" at times 0 and 100000, then a cleanup at
time 100000 with 1-day retention (cutoff 13600), which evicts the first
interaction but leaves the session counter at 2. -/
def c2Ops : List AnalyticsOp :=
  [.record 0 "u" "c" "hi" "yo" "sleep_science",
   .record 100000 "u" "c" "hey" "yo" "sleep_science",
   .cleanup 100000 1]

/-- C2 (failing evaluation): after `c2Ops` the stored session counter for "u"
is 2 while the log scan finds 1 interaction, and `get_user_analytics` reports
the mismatched pair (total_interactions = 2, total_messages = 1): the
incremental state does not equal the recomputation once cleanup has run. -/
theorem C2_cleanup_breaks_equivalence :
    sessionTotal (runOps c2Ops initialAnalyticsState) "u" = 2 ∧
    logCount (runOps c2Ops initialAnalyticsState) "u" = 1 ∧
    (get_user_analytics (runOps c2Ops initialAnalyticsState) "u").map
        (fun ua => (ua.total_interactions, ua.total_messages)) = .ok (2, 1) ∧
    sessionTotal (runOps c2Ops initialAnalyticsState) "u" ≠
      logCount (runOps c2Ops initialAnalyticsState) "u" := by
  refine ⟨by decide, by decide, ?_, by decide⟩
  rfl

end SleepScience
